import Mathlib

/-
Verification development for the flashbots bundle-submission example
(src/examples/simple.py). The script builds a two-transaction EIP-1559
bundle, signs one transaction up front, and loops: read the chain head,
send the bundle to the relay with a replacement uuid, sleep, query bundle
stats, and check for a mined receipt, retrying on TransactionNotFound.
The definitions below are a shallow embedding of that script; external
collaborators (chain RPC, uuid generator, relay, crypto primitives) are
modelled as explicit parameters or environment streams.
-/

namespace SimpleExample

/-- Python line 26: USE_SEPOLIA = True. -/
def USE_SEPOLIA : Bool := true

/-- Python line 27: CHAIN_ID = 5 if USE_SEPOLIA else 1, as a function of the flag. -/
def chainIdOf (useSepolia : Bool) : Nat := if useSepolia then 5 else 1

/-- The CHAIN_ID value actually used by the script. -/
def CHAIN_ID : Nat := chainIdOf USE_SEPOLIA

/-- Python lines 89-92: relay url override handed to flashbot(w3, signer, ...);
when USE_SEPOLIA is false no override is supplied. -/
def relayUrlOverride (useSepolia : Bool) : Option String :=
  if useSepolia then some "https://relay-goerli.flashbots.net" else none

/-- Python line 47: the url the standalone simulate_bundle helper posts to. -/
def SIMULATE_URL : String := "https://relay-sepolia.flashbots.net"

/-- The transaction field map of the script (web3 TxParams), lines 109-132. -/
structure TxParams where
  toAddr : String
  value : Nat
  gas : Nat
  maxFeePerGas : Nat
  maxPriorityFeePerGas : Nat
  nonce : Nat
  chainId : Nat
  type : Nat
deriving DecidableEq, Repr

/-- Python lines 109-118: tx1, a transfer of 0.001 ether (10^15 wei) with the
sender transaction count as nonce. -/
def tx1 (receiverAddress : String) (nonce chainId : Nat) : TxParams :=
  { toAddr := receiverAddress
    value := 1000000000000000
    gas := 21000
    maxFeePerGas := 200000000000
    maxPriorityFeePerGas := 50000000000
    nonce := nonce
    chainId := chainId
    type := 2 }

/-- Python lines 123-132: tx2, identical except nonce + 1. -/
def tx2 (receiverAddress : String) (nonce chainId : Nat) : TxParams :=
  { toAddr := receiverAddress
    value := 1000000000000000
    gas := 21000
    maxFeePerGas := 200000000000
    maxPriorityFeePerGas := 50000000000
    nonce := nonce + 1
    chainId := chainId
    type := 2 }

/-- A bundle entry, lines 134-137: either pre-signed raw bytes or a
transaction to be signed by the sender at submission time. -/
inductive BundleEntry where
  | signed_transaction (raw : List Nat)
  | toSign (transaction : TxParams)
deriving DecidableEq, Repr

/-- Python lines 134-137: the bundle list, with tx1 pre-signed by the sender
signing function and tx2 left for the client to sign. -/
def mkBundle (sign_transaction : TxParams → List Nat) (receiverAddress : String)
    (nonce chainId : Nat) : List BundleEntry :=
  [BundleEntry.signed_transaction (sign_transaction (tx1 receiverAddress nonce chainId)),
   BundleEntry.toSign (tx2 receiverAddress nonce chainId)]

/-- Outcome of the receipt lookup send_result.receipts() on one attempt,
lines 183-191: a receipt with its containing block number, the
TransactionNotFound exception, or any other chain-RPC exception. -/
inductive ReceiptOutcome where
  | ok (blockNumber : Nat)
  | notFound
  | rpcError (e : String)
deriving DecidableEq, Repr

/-- The external world of one execution, as per-attempt streams: the value
get_transaction_count would return at attempt i, the chain head
w3.eth.block_number at attempt i, the uuid str(uuid4()) drawn at attempt i,
the stats payloads the relay returns at attempt i, and the outcome of the
receipt lookup at attempt i. -/
structure Env where
  txCount : Nat → Nat
  blockNumber : Nat → Nat
  uuid : Nat → String
  statsV1 : Nat → String
  statsV2 : Nat → String
  receiptCheck : Nat → ReceiptOutcome

/-- Everything one loop iteration of main (lines 142-191) does before the
receipt check: which bundle it submits, whether simulate_bundle ran (the
call at lines 151-157 is commented out in the source), the target block it
prints (line 160: block + 1), the target block it actually sends
(line 165: block + 10), the replacement uuid it passes (drawn inside the
loop at line 161), that send_bundle was called, the sleep duration
(line 170: 12 seconds), and the block argument passed to both stats
queries (lines 172-180: block). -/
structure Attempt where
  bundle : List BundleEntry
  simulated : Bool
  printedTargetBlock : Nat
  sentTargetBlock : Nat
  replacementUuid : String
  sentBundle : Bool
  sleptSeconds : Nat
  statsQueriedBlock : Nat
deriving DecidableEq, Repr

/-- Attempt i of the script: the bundle is built once before the loop from
the transaction count read at start (line 107), so every attempt reuses it;
the chain head is re-read per iteration (line 143) and the uuid is drawn
per iteration (line 161). -/
def attemptAt (env : Env) (receiverAddress : String)
    (sign_transaction : TxParams → List Nat) (i : Nat) : Attempt :=
  let b := mkBundle sign_transaction receiverAddress (env.txCount 0) CHAIN_ID
  let block := env.blockNumber i
  { bundle := b
    simulated := false
    printedTargetBlock := block + 1
    sentTargetBlock := block + 10
    replacementUuid := env.uuid i
    sentBundle := true
    sleptSeconds := 12
    statsQueriedBlock := block }

/-- Modelled from the spec: the bundle the spec section 4.5 says attempt i
should submit, assembled fresh on entry to Building with nonces fixed at
that build, i.e. from the transaction count as of attempt i. Comparator
for the refinement claim about per-attempt rebuilding; the code above
(attemptAt) is the authority for what the script does. -/
def freshBundleAt (env : Env) (receiverAddress : String)
    (sign_transaction : TxParams → List Nat) (i : Nat) : List BundleEntry :=
  mkBundle sign_transaction receiverAddress (env.txCount i) CHAIN_ID

/-- How the try/except at lines 183-191 classifies the receipt outcome:
a receipt breaks the loop with the mined block, TransactionNotFound is
caught and the loop continues, any other exception propagates. -/
inductive StepResult where
  | mined (blockNumber : Nat)
  | retry
  | raised (e : String)
deriving DecidableEq, Repr

/-- The classification function for one receipt outcome. -/
def stepResult : ReceiptOutcome → StepResult
  | ReceiptOutcome.ok bn => StepResult.mined bn
  | ReceiptOutcome.notFound => StepResult.retry
  | ReceiptOutcome.rpcError e => StepResult.raised e

/-- How the while loop can end: success with a mined block (break at
line 186), an uncaught exception propagating out, or abandonment. The
abandoned constructor exists to state its unreachability: no code path in
the script produces it (the cancel call at line 190 is commented out). -/
inductive LoopOutcome where
  | mined (blockNumber : Nat)
  | raised (e : String)
  | abandoned
deriving DecidableEq, Repr

/-- Fuel-bounded run of the while True loop from attempt i: none means the
loop is still running after consuming the fuel. -/
def runLoop (env : Env) : Nat → Nat → Option LoopOutcome
  | 0, _ => none
  | fuel + 1, i =>
    match stepResult (env.receiptCheck i) with
    | StepResult.mined bn => some (LoopOutcome.mined bn)
    | StepResult.raised e => some (LoopOutcome.raised e)
    | StepResult.retry => runLoop env fuel (i + 1)

/-- The crypto primitives used by simulate_bundle (lines 63-65), modelled
abstractly: Web3.keccak(text=body).hex(), messages.encode_defunct(text=x)
(the length-prefixed, domain-separated personal-message encoding), and
Account.sign_message(m, key).signature.hex() for the fixed reputation key. -/
structure SigPrimitives where
  keccakHex : String → String
  encode_defunct : String → String
  signHex : String → String

/-- Python line 65: the X-Flashbots-Signature header value, the signer
address, a colon, and the recoverable signature over the personal-message
encoding of the keccak hash of the serialized body. -/
def xFlashbotsSignature (p : SigPrimitives) (signerAddress body : String) : String :=
  signerAddress ++ ":" ++ p.signHex (p.encode_defunct (p.keccakHex body))

/-- A concrete execution used at concrete inputs: transaction count 5
throughout, chain head 100 throughout, a distinct uuid drawn on the first
two attempts, and every receipt lookup raising TransactionNotFound. -/
def envFresh : Env :=
  { txCount := fun _ => 5
    blockNumber := fun _ => 100
    uuid := fun i => if i = 0 then "a" else "b"
    statsV1 := fun _ => ""
    statsV2 := fun _ => ""
    receiptCheck := fun _ => ReceiptOutcome.notFound }

/-- A concrete execution whose transaction count moves from 5 to 7 between
the first and second attempt. -/
def envNonce : Env :=
  { txCount := fun i => if i = 0 then 5 else 7
    blockNumber := fun _ => 100
    uuid := fun _ => "a"
    statsV1 := fun _ => ""
    statsV2 := fun _ => ""
    receiptCheck := fun _ => ReceiptOutcome.notFound }

/-- A concrete execution where every receipt lookup fails with a chain-RPC
connection error (not TransactionNotFound). -/
def envRpcErr : Env :=
  { txCount := fun _ => 5
    blockNumber := fun _ => 100
    uuid := fun _ => "a"
    statsV1 := fun _ => ""
    statsV2 := fun _ => ""
    receiptCheck := fun _ => ReceiptOutcome.rpcError "connection error" }

/-- Claim C1, counterexample: the uuid is drawn by str(uuid4()) inside the
while loop (line 161), so two consecutive attempts of the same lifecycle
carry different replacementUuid values. -/
theorem C1_counterexample :
    (attemptAt envFresh "r" (fun _ => []) 0).replacementUuid ≠
      (attemptAt envFresh "r" (fun _ => []) 1).replacementUuid := by decide

/-- Claim C1, amended: each attempt passes the uuid freshly drawn at that
attempt as its replacementUuid, so whenever two draws differ (fresh uuid4
draws are distinct with overwhelming probability), the ids passed on the
two attempts differ; no id is chosen once before the loop and reused. -/
theorem C1_fresh_uuid_per_attempt (env : Env) (r : String)
    (sg : TxParams → List Nat) (i j : Nat) (h : env.uuid i ≠ env.uuid j) :
    (attemptAt env r sg i).replacementUuid = env.uuid i ∧
    (attemptAt env r sg i).replacementUuid ≠ (attemptAt env r sg j).replacementUuid :=
  ⟨rfl, h⟩

/-- Claim C1, witness for the amended theorem at a concrete execution. -/
theorem C1_fresh_uuid_per_attempt_witness :
    (attemptAt envFresh "s" (fun _ => []) 0).replacementUuid = envFresh.uuid 0 ∧
    (attemptAt envFresh "s" (fun _ => []) 0).replacementUuid ≠
      (attemptAt envFresh "s" (fun _ => []) 1).replacementUuid :=
  C1_fresh_uuid_per_attempt envFresh "s" (fun _ => []) 0 1 (by decide)

/-- Claim C2, counterexample: in an execution where the transaction count
changes between attempt 0 and attempt 1, the script still submits the
bundle built before the loop on attempt 1 (identical to the one of attempt
0), which differs from the fresh bundle the spec prescribes for attempt 1. -/
theorem C2_counterexample :
    envNonce.txCount 1 ≠ envNonce.txCount 0 ∧
    (attemptAt envNonce "r" (fun _ => []) 1).bundle
      = (attemptAt envNonce "r" (fun _ => []) 0).bundle ∧
    (attemptAt envNonce "r" (fun _ => []) 1).bundle
      ≠ freshBundleAt envNonce "r" (fun _ => []) 1 := by
  refine ⟨by decide, rfl, by decide⟩

/-- Claim C2, amended: each attempt re-reads the chain head (the sent
target block follows the head of that attempt), but the bundle is
assembled once before the loop from the transaction count read at start
and the same bundle is reused on every attempt. -/
theorem C2_bundle_reused_block_reread (env : Env) (r : String)
    (sg : TxParams → List Nat) (i : Nat) :
    (attemptAt env r sg i).bundle = mkBundle sg r (env.txCount 0) CHAIN_ID ∧
    (attemptAt env r sg i).bundle = (attemptAt env r sg 0).bundle ∧
    (attemptAt env r sg i).sentTargetBlock = env.blockNumber i + 10 :=
  ⟨rfl, rfl, rfl⟩

/-- Claim C3: the authentication header is the signer address, a colon, and
the signature over the personal-message encoding of the keccak hash of the
body; when the primitives are collision-free (injective), any change of
the body bytes changes the header value. -/
theorem C3_auth_header (p : SigPrimitives) (signerAddress b b2 : String)
    (hk : Function.Injective p.keccakHex) (he : Function.Injective p.encode_defunct)
    (hs : Function.Injective p.signHex) (hne : b ≠ b2) :
    xFlashbotsSignature p signerAddress b
      = signerAddress ++ ":" ++ p.signHex (p.encode_defunct (p.keccakHex b)) ∧
    xFlashbotsSignature p signerAddress b ≠ xFlashbotsSignature p signerAddress b2 := by
  refine ⟨rfl, fun h => hne ?_⟩
  have hd := congrArg String.data h
  simp [xFlashbotsSignature, String.data_append] at hd
  exact hk (he (hs (String.ext hd)))

/-- Claim C3, witness at concrete injective primitives and bodies. -/
theorem C3_auth_header_witness :
    xFlashbotsSignature ⟨id, id, id⟩ "A" "x" = "A" ++ ":" ++ id (id (id "x")) ∧
    xFlashbotsSignature ⟨id, id, id⟩ "A" "x" ≠ xFlashbotsSignature ⟨id, id, id⟩ "A" "y" :=
  C3_auth_header ⟨id, id, id⟩ "A" "x" "y"
    (fun _ _ hx => hx) (fun _ _ hx => hx) (fun _ _ hx => hx) (by decide)

/-- Claim C4: at chain head 100 the attempt sends target block 110
(block + 10, line 165) but prints target block 101 (block + 1, line 160),
so the user-visible report does not name the block actually targeted. -/
theorem C4_target_print_mismatch :
    (attemptAt envFresh "r" (fun _ => []) 0).sentTargetBlock = 110 ∧
    (attemptAt envFresh "r" (fun _ => []) 0).printedTargetBlock = 101 ∧
    (attemptAt envFresh "r" (fun _ => []) 0).printedTargetBlock ≠
      (attemptAt envFresh "r" (fun _ => []) 0).sentTargetBlock := by
  refine ⟨rfl, rfl, by decide⟩

/-- Claim C5, counterexample: on a concrete attempt the bundle is sent
although no simulation ran at all (the simulate_bundle call of lines
151-157 is commented out), so the send is not preceded by a non-failing
simulation. -/
theorem C5_counterexample :
    (attemptAt envFresh "r" (fun _ => []) 0).sentBundle = true ∧
    (attemptAt envFresh "r" (fun _ => []) 0).simulated = false :=
  ⟨rfl, rfl⟩

/-- Claim C5, amended: the reference code performs no pre-submission
simulation on any attempt; send_bundle is invoked unconditionally. -/
theorem C5_no_presubmission_simulation (env : Env) (r : String)
    (sg : TxParams → List Nat) (i : Nat) :
    (attemptAt env r sg i).sentBundle = true ∧
    (attemptAt env r sg i).simulated = false :=
  ⟨rfl, rfl⟩

/-- Claim C6: the TransactionNotFound outcome is classified as retry and
makes the loop continue with the next attempt, never surfacing an error;
any other chain-RPC failure is not absorbed into the retry path but
surfaces distinctly as a raised outcome, and a receipt ends the loop with
the mined block. -/
theorem C6_receipt_classification (env : Env) (i fuel : Nat) :
    (env.receiptCheck i = ReceiptOutcome.notFound →
      stepResult (env.receiptCheck i) = StepResult.retry ∧
      runLoop env (fuel + 1) i = runLoop env fuel (i + 1)) ∧
    (∀ e, env.receiptCheck i = ReceiptOutcome.rpcError e →
      stepResult (env.receiptCheck i) = StepResult.raised e ∧
      runLoop env (fuel + 1) i = some (LoopOutcome.raised e)) ∧
    (∀ bn, env.receiptCheck i = ReceiptOutcome.ok bn →
      runLoop env (fuel + 1) i = some (LoopOutcome.mined bn)) := by
  refine ⟨fun h => ?_, fun e h => ?_, fun bn h => ?_⟩ <;>
    simp [runLoop, stepResult, h]

/-- Claim C6, witness at two concrete executions. -/
theorem C6_receipt_classification_witness :
    runLoop envFresh 1 0 = runLoop envFresh 0 1 ∧
    runLoop envRpcErr 1 0 = some (LoopOutcome.raised "connection error") :=
  ⟨((C6_receipt_classification envFresh 0 0).1 rfl).2,
   ((C6_receipt_classification envRpcErr 0 0).2.1 "connection error" rfl).2⟩

/-- Claim C7, counterexample: in the execution where every receipt lookup
raises a chain-RPC connection error, no attempt ever yields a receipt, yet
the loop does not retry unboundedly: it terminates on the first attempt by
propagating the error. -/
theorem C7_counterexample :
    envRpcErr.receiptCheck = (fun _ => ReceiptOutcome.rpcError "connection error") ∧
    runLoop envRpcErr 5 0 = some (LoopOutcome.raised "connection error") :=
  ⟨rfl, rfl⟩

/-- Claim C7, amended: when every inclusion check returns the not-found
outcome (no receipt and no chain-RPC error), the loop is still running
after any number of attempts, and in every execution the abandoned outcome
is unreachable (no cancellation or ceiling exists in the code). -/
theorem C7_unbounded_retry (env : Env) :
    ((∀ i, env.receiptCheck i = ReceiptOutcome.notFound) →
      ∀ fuel i, runLoop env fuel i = none) ∧
    (∀ fuel i, runLoop env fuel i ≠ some LoopOutcome.abandoned) := by
  constructor
  · intro h fuel
    induction fuel with
    | zero => exact fun i => rfl
    | succ n ih => exact fun i => by simpa [runLoop, stepResult, h i] using ih (i + 1)
  · intro fuel
    induction fuel with
    | zero => intro i hcontra; exact Option.noConfusion hcontra
    | succ n ih =>
      intro i
      cases hc : env.receiptCheck i with
      | ok bn => simp [runLoop, stepResult, hc]
      | notFound => simpa [runLoop, stepResult, hc] using ih (i + 1)
      | rpcError e => simp [runLoop, stepResult, hc]

/-- Claim C7, witness for the amended theorem at concrete executions. -/
theorem C7_unbounded_retry_witness :
    runLoop envFresh 7 0 = none ∧
    runLoop envRpcErr 1 0 ≠ some LoopOutcome.abandoned :=
  ⟨(C7_unbounded_retry envFresh).1 (fun _ => rfl) 7 0,
   (C7_unbounded_retry envRpcErr).2 1 0⟩

/-- Two executions with the same receipt outcomes run the loop alike. -/
theorem runLoop_congr (e1 e2 : Env) (h : e1.receiptCheck = e2.receiptCheck) :
    ∀ fuel i, runLoop e1 fuel i = runLoop e2 fuel i := by
  intro fuel
  induction fuel with
  | zero => exact fun i => rfl
  | succ n ih =>
    intro i
    have hi : e1.receiptCheck i = e2.receiptCheck i := congrFun h i
    cases hc : e2.receiptCheck i with
    | ok bn => simp [runLoop, stepResult, hi, hc]
    | notFound => simpa [runLoop, stepResult, hi, hc] using ih (i + 1)
    | rpcError e => simp [runLoop, stepResult, hi, hc]

/-- Claim C8: the stats payloads returned by getBundleStats and
getBundleStatsV2 are observability only. Two executions identical except
in those payloads produce the same attempt record (same bundle, target,
uuid) and the same loop behavior at every fuel bound, and each attempt
sleeps 12 seconds (one block time) before the stats queries. -/
theorem C8_stats_observability_only (env : Env) (s1 s2 t1 t2 : Nat → String)
    (r : String) (sg : TxParams → List Nat) (i fuel : Nat) :
    attemptAt { env with statsV1 := s1, statsV2 := t1 } r sg i
      = attemptAt { env with statsV1 := s2, statsV2 := t2 } r sg i ∧
    runLoop { env with statsV1 := s1, statsV2 := t1 } fuel i
      = runLoop { env with statsV1 := s2, statsV2 := t2 } fuel i ∧
    (attemptAt env r sg i).sleptSeconds = 12 :=
  ⟨rfl,
   runLoop_congr { env with statsV1 := s1, statsV2 := t1 }
     { env with statsV1 := s2, statsV2 := t2 } rfl fuel i,
   rfl⟩

/-- Claim C9: in the assembled two-transaction bundle, the first entry
carries the sender transaction count n as nonce and the second carries
n + 1, so no two entries of the same sender share a nonce. -/
theorem C9_nonce_unique (r : String) (n c : Nat) (sg : TxParams → List Nat) :
    (tx1 r n c).nonce = n ∧ (tx2 r n c).nonce = n + 1 ∧
    (tx1 r n c).nonce ≠ (tx2 r n c).nonce ∧
    mkBundle sg r n c =
      [BundleEntry.signed_transaction (sg (tx1 r n c)),
       BundleEntry.toSign (tx2 r n c)] := by
  refine ⟨rfl, rfl, ?_, rfl⟩
  simp [tx1, tx2]

/-- Claim C10: USE_SEPOLIA defaults to true; the chain id is 5 when the
flag is true and 1 when false; the relay url override is the goerli relay
when true and absent when false; the standalone simulation helper posts to
the sepolia relay; every constructed transaction carries the chain id of
the flag in force. -/
theorem C10_network_config :
    USE_SEPOLIA = true ∧ CHAIN_ID = 5 ∧
    chainIdOf true = 5 ∧ chainIdOf false = 1 ∧
    relayUrlOverride true = some "https://relay-goerli.flashbots.net" ∧
    relayUrlOverride false = none ∧
    SIMULATE_URL = "https://relay-sepolia.flashbots.net" ∧
    (∀ r n, (tx1 r n (chainIdOf true)).chainId = 5 ∧
      (tx2 r n (chainIdOf true)).chainId = 5 ∧
      (tx1 r n (chainIdOf false)).chainId = 1 ∧
      (tx2 r n (chainIdOf false)).chainId = 1) :=
  ⟨rfl, rfl, rfl, rfl, rfl, rfl, rfl, fun _ _ => ⟨rfl, rfl, rfl, rfl⟩⟩

end SimpleExample
